import Mathlib

/-!
Verification of the Picosniff attack-detection engine
(`src/attack_detection.py`, plus the detection path of
`src/packet_parser.py:parse_packet`).

The Python code is shallowly embedded: the detector's mutable object state
becomes an explicit `DetectorState` threaded through the functions, the
calls to `time.time()` inside one inspection become a single explicit
`now : ℚ` argument, Python floats become exact rationals, and the
`IndexError` raised by `packet[IP]` on a packet without an IP layer becomes
an explicit `raised` outcome carrying the state at the moment of the raise
(no mutation precedes the raise in `_detect_flood`, so that state is the
entry state of the failing flood pass).

One representation note: `detect_attacks` in the source recovers the rate
from the formatted message string via
`float(message.split("(")[-1].split()[0])`, where the message was formatted
with `"{:.2f}".format(rate)`.  Every rate the code produces is
`count / 5` for a natural `count`, i.e. a multiple of `1/5`, on which the
two-decimal round trip is exact, so the embedding carries the rate as a
field of the structured message and compares it directly.
-/

namespace Picosniff

/-- The two flood event types tracked by `event_history`
(the `'syn'` and `'dns'` keys of the Python dict). -/
inductive EventType where
  | syn
  | dns
deriving DecidableEq, Repr

/-- The packet fields the detection path consults.  `ipSrc = none` models a
packet record without an IPv4 layer, on which `packet[IP].src` raises. -/
structure Packet where
  hasTCP : Bool
  tcpFlags : Nat
  hasDNS : Bool
  dnsQr : Nat
  ipSrc : Option String
deriving DecidableEq, Repr

/-- A `defaultdict` keyed by strings, as an insertion-ordered association
list; absent keys read as the empty default. -/
def lookupD {α : Type} (m : List (String × List α)) (k : String) : List α :=
  match m with
  | [] => []
  | e :: rest => if e.1 = k then e.2 else lookupD rest k

/-- Write a key's value, replacing an existing entry in place or appending
a fresh key at the end (Python dicts keep insertion order). -/
def updateD {α : Type} (m : List (String × List α)) (k : String) (v : List α) :
    List (String × List α) :=
  match m with
  | [] => [(k, v)]
  | e :: rest => if e.1 = k then (k, v) :: rest else e :: updateD rest k v

/-- Per-source sliding window of event timestamps, oldest first. -/
abbrev History := List (String × List ℚ)

/-- `self.time_window = 5`. -/
def timeWindow : ℚ := 5

/-- `self.threshold_multipliers = {'syn': 2, 'dns': 3}`. -/
def thresholdMultiplier : EventType → ℚ
  | .syn => 2
  | .dns => 3

/-- `self.baseline_rates = {'syn': 2, 'dns': 3}` (initial values). -/
def initialBaseline : EventType → ℚ
  | .syn => 2
  | .dns => 3

/-- `self.ewma_alpha = 0.2`. -/
def ewmaAlpha : ℚ := 1 / 5

/-- `self.decay_factor = 0.3`. -/
def decayFactor : ℚ := 3 / 10

/-- The mutable state an `AttackDetector` instance carries:
`arp_map`, `event_history` and `baseline_rates`. -/
structure DetectorState where
  arpMap : List (String × List String)
  eventHistory : EventType → History
  baselineRates : EventType → ℚ

/-- The state built by `AttackDetector.__init__`. -/
def initState : DetectorState where
  arpMap := []
  eventHistory := fun _ => []
  baselineRates := initialBaseline

/-- `packet.haslayer(TCP) and packet[TCP].flags & 0x02`: the code's `'syn'`
qualification test (only the SYN bit, 0x02, is consulted). -/
def synEvent (p : Packet) : Bool :=
  p.hasTCP && (p.tcpFlags &&& 2 != 0)

/-- `packet.haslayer(DNS) and packet[DNS].qr == 0`: the code's `'dns'`
qualification test. -/
def dnsEvent (p : Packet) : Bool :=
  p.hasDNS && (p.dnsQr == 0)

/-- Which packets qualify for which event type. -/
def qualifies (p : Packet) : EventType → Bool
  | .syn => synEvent p
  | .dns => dnsEvent p

/-- The spec's `'syn'` qualification rule, stated for comparison with the
code's `synEvent`: SYN bit (0x02) set and ACK bit (0x10) clear. -/
def synEventSpec (p : Packet) : Bool :=
  p.hasTCP && (p.tcpFlags &&& 2 != 0) && (p.tcpFlags &&& 16 == 0)

/-- `while events and current_time - events[0] > self.time_window:
events.popleft()` — drop expired entries from the head, stopping at the
first non-expired one. -/
def evict (now : ℚ) : List ℚ → List ℚ
  | [] => []
  | t :: ts => if now - t > timeWindow then evict now ts else t :: ts

/-- `self.event_history[event_type][source].append(current_time)`. -/
def recordEvent (m : History) (k : String) (t : ℚ) : History :=
  updateD m k (lookupD m k ++ [t])

/-- `_cleanup_events(event_type)`: evict expired timestamps from every
source's window of the given type. -/
def cleanupHistory (now : ℚ) (m : History) : History :=
  m.map (fun e => (e.1, evict now e.2))

/-- The structured content of a flood message: event type, source address,
and the rate interpolated into the format string. -/
structure FloodMsg where
  ety : EventType
  source : String
  rate : ℚ
deriving DecidableEq, Repr

/-- Outcome of one `_detect_flood` call: an uncaught `IndexError`
(`packet[IP]` on a packet without an IP layer), no message, or a message. -/
inductive FloodOutcome where
  | raised
  | quiet
  | msg (m : FloodMsg)
deriving DecidableEq, Repr

/-- `AttackDetector._detect_flood(packet, event_type)` at instant `now`. -/
def detectFlood (st : DetectorState) (p : Packet) (ety : EventType) (now : ℚ) :
    FloodOutcome × DetectorState :=
  if qualifies p ety then
    match p.ipSrc with
    | none => (.raised, st)
    | some source =>
      let appended := recordEvent (st.eventHistory ety) source now
      let cleaned := cleanupHistory now appended
      let hist := fun e => if e = ety then cleaned else st.eventHistory e
      let rate : ℚ := ((lookupD cleaned source).length : ℚ) / timeWindow
      let decayed := st.baselineRates ety * (1 - decayFactor)
      let blended := ewmaAlpha * rate + (1 - ewmaAlpha) * decayed
      let rates := fun e => if e = ety then blended else st.baselineRates e
      let st' : DetectorState :=
        { st with eventHistory := hist, baselineRates := rates }
      if blended * thresholdMultiplier ety ≤ rate then
        (.msg ⟨ety, source, rate⟩, st')
      else
        (.quiet, st')
  else
    (.quiet, st)

/-- Outcome of one `detect_attacks` call: an uncaught exception, no alert,
or one formatted alert (relative timestamp plus message content). -/
inductive DetectResult where
  | raised
  | noAlert
  | alert (relTime : ℚ) (m : FloodMsg)
deriving DecidableEq, Repr

/-- The `'dns'` iteration of the loop in `detect_attacks`, reached only
when the `'syn'` iteration surfaced nothing. -/
def dnsPass (st : DetectorState) (p : Packet) (now start : ℚ) :
    DetectResult × DetectorState :=
  match detectFlood st p .dns now with
  | (.raised, st') => (.raised, st')
  | (.quiet, st') => (.noAlert, st')
  | (.msg m, st') =>
    if 5 ≤ m.rate then (.alert (now - start) m, st') else (.noAlert, st')

/-- `AttackDetector.detect_attacks(packet, start_time)` at instant `now`:
try `'syn'`, then `'dns'`; a message is surfaced as an alert only when its
rate is at least `5.0`, otherwise the loop continues. -/
def detectAttacks (st : DetectorState) (p : Packet) (now start : ℚ) :
    DetectResult × DetectorState :=
  match detectFlood st p .syn now with
  | (.raised, st') => (.raised, st')
  | (.quiet, st') => dnsPass st' p now start
  | (.msg m, st') =>
    if 5 ≤ m.rate then (.alert (now - start) m, st') else dnsPass st' p now start

/-- What the detection path of `PacketParser.parse_packet` surfaces: the
`except` clause turns an exception into an "Error processing packet"
message on the ordinary output callback (never the attack callback),
keeping whatever detector state existed at the raise. -/
inductive ParseOutput where
  | procError
  | silent
  | alertOut (relTime : ℚ) (m : FloodMsg)
deriving DecidableEq, Repr

/-- The detection path of `PacketParser.parse_packet` for one packet. -/
def parsePacket (st : DetectorState) (p : Packet) (now start : ℚ) :
    ParseOutput × DetectorState :=
  match detectAttacks st p now start with
  | (.raised, st') => (.procError, st')
  | (.noAlert, st') => (.silent, st')
  | (.alert t m, st') => (.alertOut t m, st')

/-- Feed a list of (packet, timestamp) pairs through `detect_attacks`,
collecting each call's result. -/
def runSeq (st : DetectorState) (start : ℚ) :
    List (Packet × ℚ) → List DetectResult × DetectorState
  | [] => ([], st)
  | (p, t) :: rest =>
    let r := detectAttacks st p t start
    let rs := runSeq r.2 start rest
    (r.1 :: rs.1, rs.2)

/-- First alert in a trace, with its relative timestamp. -/
def firstAlert : List DetectResult → Option (ℚ × FloodMsg)
  | [] => none
  | .alert t m :: _ => some (t, m)
  | _ :: rest => firstAlert rest

/-- Modelled from the spec: `AttackDetector.__init__` creates `arp_map`
(`src/attack_detection.py:38`) but no method in `src/` ever reads or
writes it; the spec's `SpoofTracker.observe(link_addr, claimed_net_addr)`
is the missing code.  Faithful to the spec's words: add the claimed
address to the set keyed by the link address; alert exactly when a *new*
address is added and the resulting set has more than one element, naming
the link address and the full set. -/
def observe (st : DetectorState) (link ip : String) :
    Option (String × List String) × DetectorState :=
  let s := lookupD st.arpMap link
  if ip ∈ s then
    (none, st)
  else
    let s' := s ++ [ip]
    let st' := { st with arpMap := updateD st.arpMap link s' }
    if 1 < s'.length then (some (link, s'), st') else (none, st')

/-- Modelled from the spec: no `reset()` method exists in `src/`; the
spec's `reset()` "clearing all per-source windows, spoof map, and
restoring baseline rates to their initial configured values" is the
missing code. -/
def reset (_st : DetectorState) : DetectorState where
  arpMap := []
  eventHistory := fun _ => []
  baselineRates := initialBaseline

/-- The spec's per-event window after step 1 and step 2 of §4.3
(append the timestamp at the tail, then evict expired entries). -/
def specWindow (w : List ℚ) (now : ℚ) : List ℚ :=
  evict now (w ++ [now])

/-- The spec's step 3 of §4.3: `rate = window.count() / window_duration`. -/
def specRate (w : List ℚ) (now : ℚ) : ℚ :=
  ((specWindow w now).length : ℚ) / timeWindow

/-- The spec's §4.2 baseline update, decay first, then EWMA blend:
`baseline *= (1 - decay); baseline = alpha * rate + (1 - alpha) * baseline`. -/
def specBaseline (b rate : ℚ) : ℚ :=
  ewmaAlpha * rate + (1 - ewmaAlpha) * (b * (1 - decayFactor))

/-! Concrete inputs reused by witnesses and counterexamples. -/

/-- A pure TCP SYN packet from source `"A"`. -/
def pSyn : Packet := ⟨true, 2, false, 1, some "A"⟩

/-- A TCP SYN-ACK packet (flags `0x12`) from source `"A"`. -/
def pSynAck : Packet := ⟨true, 18, false, 1, some "A"⟩

/-- A TCP SYN packet record with no IP layer. -/
def pBad : Packet := ⟨true, 2, false, 1, none⟩

/-- A state whose `'syn'` window for `"A"` already holds 24 timestamps:
the next SYN from `"A"` at time 0 observes rate `25 / 5 = 5`. -/
def stW : DetectorState where
  arpMap := []
  eventHistory := fun e => if e = .syn then [("A", List.replicate 24 0)] else []
  baselineRates := initialBaseline

/-- `n` copies of `pSyn`, all at timestamp 0. -/
def synBurst (n : Nat) : List (Packet × ℚ) := List.replicate n (pSyn, 0)

/-- A DNS query packet (no TCP layer, `qr = 0`) from source `"A"`. -/
def pDns : Packet := ⟨false, 0, true, 0, some "A"⟩

/-- A state whose `'dns'` window for `"A"` already holds 63 timestamps:
the next DNS query from `"A"` at time 0 observes rate `64 / 5 = 12.8`,
above both the dns threshold (`3 * 4.24 = 12.72`) and the 5.0 floor. -/
def stWD : DetectorState where
  arpMap := []
  eventHistory := fun e => if e = .dns then [("A", List.replicate 63 0)] else []
  baselineRates := initialBaseline

/-! Association-list lemmas. -/

theorem lookupD_updateD_self {α : Type} (m : List (String × List α)) (k : String)
    (v : List α) : lookupD (updateD m k v) k = v := by
  induction m with
  | nil => simp [updateD, lookupD]
  | cons e rest ih =>
    by_cases h : e.1 = k
    · simp [updateD, lookupD, h]
    · simp [updateD, lookupD, h, ih]

theorem lookupD_updateD_ne {α : Type} (m : List (String × List α)) (k k' : String)
    (v : List α) (h : k' ≠ k) : lookupD (updateD m k v) k' = lookupD m k' := by
  induction m with
  | nil => simp [updateD, lookupD, Ne.symm h]
  | cons e rest ih =>
    by_cases he : e.1 = k
    · simp [updateD, lookupD, he, Ne.symm h]
    · by_cases he' : e.1 = k'
      · simp [updateD, lookupD, he, he', h]
      · simp [updateD, lookupD, he, he', h, ih]

theorem lookupD_cleanup (now : ℚ) (m : History) (k : String) :
    lookupD (cleanupHistory now m) k = evict now (lookupD m k) := by
  induction m with
  | nil => simp [cleanupHistory, lookupD, evict]
  | cons e rest ih =>
    by_cases h : e.1 = k
    · simp [cleanupHistory, lookupD, h]
    · simp only [cleanupHistory, List.map_cons, lookupD, h, if_false]
      simpa [cleanupHistory] using ih

theorem lookupD_record_self (m : History) (k : String) (t : ℚ) :
    lookupD (recordEvent m k t) k = lookupD m k ++ [t] := by
  simp [recordEvent, lookupD_updateD_self]

theorem lookupD_record_ne (m : History) (k k' : String) (t : ℚ) (h : k' ≠ k) :
    lookupD (recordEvent m k t) k' = lookupD m k' := by
  simp [recordEvent, lookupD_updateD_ne _ _ _ _ h]

/-! Behaviour of one `_detect_flood` pass. -/

/-- A non-qualifying packet is a no-op for this event type. -/
theorem detectFlood_not_qual (st : DetectorState) (p : Packet) (ety : EventType)
    (now : ℚ) (hq : qualifies p ety = false) :
    detectFlood st p ety now = (.quiet, st) := by
  simp [detectFlood, hq]

/-- A qualifying packet without an IP layer raises before any mutation. -/
theorem detectFlood_raised (st : DetectorState) (p : Packet) (ety : EventType)
    (now : ℚ) (hq : qualifies p ety = true) (hs : p.ipSrc = none) :
    detectFlood st p ety now = (.raised, st) := by
  simp [detectFlood, hq, hs]

/-- One qualifying `_detect_flood` pass, written out: append, global
eviction for the type, count-over-window rate, decay-then-blend baseline,
message exactly when the rate reaches `baseline * multiplier`. -/
theorem detectFlood_qual (st : DetectorState) (p : Packet) (ety : EventType)
    (now : ℚ) (s : String) (hq : qualifies p ety = true) (hs : p.ipSrc = some s) :
    detectFlood st p ety now =
      ((if specBaseline (st.baselineRates ety)
              (specRate (lookupD (st.eventHistory ety) s) now)
            * thresholdMultiplier ety
            ≤ specRate (lookupD (st.eventHistory ety) s) now
        then FloodOutcome.msg ⟨ety, s, specRate (lookupD (st.eventHistory ety) s) now⟩
        else FloodOutcome.quiet),
       { st with
          eventHistory := fun e =>
            if e = ety then cleanupHistory now (recordEvent (st.eventHistory ety) s now)
            else st.eventHistory e,
          baselineRates := fun e =>
            if e = ety then
              specBaseline (st.baselineRates ety)
                (specRate (lookupD (st.eventHistory ety) s) now)
            else st.baselineRates e }) := by
  simp only [detectFlood, hq, if_true, hs, specRate, specWindow, specBaseline,
    lookupD_cleanup, lookupD_record_self]
  split <;> rfl

/-- A flood pass for one event type leaves the other type's windows and
baseline untouched. -/
theorem detectFlood_other_type (st : DetectorState) (p : Packet) (ety e : EventType)
    (now : ℚ) (h : e ≠ ety) :
    (detectFlood st p ety now).2.eventHistory e = st.eventHistory e ∧
    (detectFlood st p ety now).2.baselineRates e = st.baselineRates e := by
  by_cases hq : qualifies p ety
  · cases hs : p.ipSrc with
    | none => rw [detectFlood_raised st p ety now hq hs]; exact ⟨rfl, rfl⟩
    | some s => rw [detectFlood_qual st p ety now s hq hs]; simp [h]
  · rw [detectFlood_not_qual st p ety now (Bool.not_eq_true _ ▸ hq)]
    exact ⟨rfl, rfl⟩

/-! Behaviour of `detect_attacks`. -/

theorem detectAttacks_of_syn_msg (st st₁ : DetectorState) (p : Packet)
    (now start : ℚ) (m : FloodMsg)
    (hF : detectFlood st p .syn now = (.msg m, st₁)) (h5 : 5 ≤ m.rate) :
    detectAttacks st p now start = (.alert (now - start) m, st₁) := by
  unfold detectAttacks
  rw [hF]
  simp [h5]

theorem detectAttacks_of_syn_quiet (st st₁ : DetectorState) (p : Packet)
    (now start : ℚ) (hF : detectFlood st p .syn now = (.quiet, st₁)) :
    detectAttacks st p now start = dnsPass st₁ p now start := by
  unfold detectAttacks
  rw [hF]

theorem detectAttacks_of_syn_low (st st₁ : DetectorState) (p : Packet)
    (now start : ℚ) (m : FloodMsg)
    (hF : detectFlood st p .syn now = (.msg m, st₁)) (h5 : ¬5 ≤ m.rate) :
    detectAttacks st p now start = dnsPass st₁ p now start := by
  unfold detectAttacks
  rw [hF]
  simp [h5]

theorem dnsPass_of_quiet (st st₂ : DetectorState) (p : Packet) (now start : ℚ)
    (hF : detectFlood st p .dns now = (.quiet, st₂)) :
    dnsPass st p now start = (.noAlert, st₂) := by
  unfold dnsPass
  rw [hF]

theorem dnsPass_of_msg (st st₂ : DetectorState) (p : Packet) (now start : ℚ)
    (m : FloodMsg) (hF : detectFlood st p .dns now = (.msg m, st₂)) (h5 : 5 ≤ m.rate) :
    dnsPass st p now start = (.alert (now - start) m, st₂) := by
  unfold dnsPass
  rw [hF]
  simp [h5]

theorem dnsPass_of_low (st st₂ : DetectorState) (p : Packet) (now start : ℚ)
    (m : FloodMsg) (hF : detectFlood st p .dns now = (.msg m, st₂)) (h5 : ¬5 ≤ m.rate) :
    dnsPass st p now start = (.noAlert, st₂) := by
  unfold dnsPass
  rw [hF]
  simp [h5]

/-- For a packet that qualifies as `'syn'` and not as `'dns'`,
`detect_attacks` returns the syn alert exactly when the new rate reaches
both the adaptive threshold and the hard `5.0` floor. -/
theorem detectAttacks_syn_alert_iff (st : DetectorState) (p : Packet)
    (now start : ℚ) (s : String) (hsyn : synEvent p = true)
    (hdns : dnsEvent p = false) (hs : p.ipSrc = some s) :
    (detectAttacks st p now start).1
        = .alert (now - start)
            ⟨.syn, s, specRate (lookupD (st.eventHistory .syn) s) now⟩
      ↔ (specBaseline (st.baselineRates .syn)
            (specRate (lookupD (st.eventHistory .syn) s) now)
          * thresholdMultiplier .syn
          ≤ specRate (lookupD (st.eventHistory .syn) s) now
        ∧ 5 ≤ specRate (lookupD (st.eventHistory .syn) s) now) := by
  have hq : qualifies p .syn = true := hsyn
  have hq2 : qualifies p .dns = false := hdns
  have hF := detectFlood_qual st p .syn now s hq hs
  by_cases hth : specBaseline (st.baselineRates .syn)
      (specRate (lookupD (st.eventHistory .syn) s) now)
      * thresholdMultiplier .syn
      ≤ specRate (lookupD (st.eventHistory .syn) s) now
  · rw [if_pos hth] at hF
    by_cases h5 : 5 ≤ specRate (lookupD (st.eventHistory .syn) s) now
    · rw [detectAttacks_of_syn_msg _ _ _ _ _ _ hF h5]
      simp [hth, h5]
    · rw [detectAttacks_of_syn_low _ _ _ _ _ _ hF h5]
      rw [dnsPass_of_quiet _ _ _ _ _ (detectFlood_not_qual _ p .dns now hq2)]
      simp [h5]
  · rw [if_neg hth] at hF
    rw [detectAttacks_of_syn_quiet _ _ _ _ _ hF]
    rw [dnsPass_of_quiet _ _ _ _ _ (detectFlood_not_qual _ p .dns now hq2)]
    simp [hth]

/-- For a packet that qualifies as `'dns'` and not as `'syn'`,
`detect_attacks` returns the dns alert exactly when the new rate reaches
both the dns adaptive threshold and the hard `5.0` floor. -/
theorem detectAttacks_dns_alert_iff (st : DetectorState) (p : Packet)
    (now start : ℚ) (s : String) (hsyn : synEvent p = false)
    (hdns : dnsEvent p = true) (hs : p.ipSrc = some s) :
    (detectAttacks st p now start).1
        = .alert (now - start)
            ⟨.dns, s, specRate (lookupD (st.eventHistory .dns) s) now⟩
      ↔ (specBaseline (st.baselineRates .dns)
            (specRate (lookupD (st.eventHistory .dns) s) now)
          * thresholdMultiplier .dns
          ≤ specRate (lookupD (st.eventHistory .dns) s) now
        ∧ 5 ≤ specRate (lookupD (st.eventHistory .dns) s) now) := by
  have hq : qualifies p .syn = false := hsyn
  have hq2 : qualifies p .dns = true := hdns
  rw [detectAttacks_of_syn_quiet _ _ _ _ _ (detectFlood_not_qual st p .syn now hq)]
  have hF := detectFlood_qual st p .dns now s hq2 hs
  by_cases hth : specBaseline (st.baselineRates .dns)
      (specRate (lookupD (st.eventHistory .dns) s) now)
      * thresholdMultiplier .dns
      ≤ specRate (lookupD (st.eventHistory .dns) s) now
  · rw [if_pos hth] at hF
    by_cases h5 : 5 ≤ specRate (lookupD (st.eventHistory .dns) s) now
    · rw [dnsPass_of_msg _ _ _ _ _ _ hF h5]
      simp [hth, h5]
    · rw [dnsPass_of_low _ _ _ _ _ _ hF h5]
      simp [h5]
  · rw [if_neg hth] at hF
    rw [dnsPass_of_quiet _ _ _ _ _ hF]
    simp [hth]

/-! Eviction lemmas. -/

/-- Eviction only removes entries from the head: what remains is a suffix
of the original window. -/
theorem evict_suffix (now : ℚ) (l : List ℚ) : evict now l <:+ l := by
  induction l with
  | nil => simp [evict]
  | cons t ts ih =>
    simp only [evict]
    by_cases h : now - t > timeWindow
    · rw [if_pos h]
      exact ih.trans (List.suffix_cons t ts)
    · rw [if_neg h]

/-- On a chronologically ordered window, head eviction removes exactly the
expired entries. -/
theorem evict_sorted_eq_filter (now : ℚ) (l : List ℚ) (h : l.Sorted (· ≤ ·)) :
    evict now l = l.filter (fun t => decide (now - t ≤ timeWindow)) := by
  induction l with
  | nil => simp [evict]
  | cons t ts ih =>
    rw [List.sorted_cons] at h
    simp only [evict]
    by_cases hexp : now - t > timeWindow
    · rw [if_pos hexp, List.filter_cons_of_neg, ih h.2]
      simp only [decide_eq_true_eq]
      exact not_le.mpr hexp
    · rw [if_neg hexp, List.filter_cons_of_pos, List.filter_eq_self.mpr]
      · intro b hb
        have hle : t ≤ b := h.1 b hb
        have : now - b ≤ timeWindow := by
          have hnt : now - t ≤ timeWindow := not_lt.mp hexp
          linarith
        exact decide_eq_true this
      · exact decide_eq_true (not_lt.mp hexp)

/-- Used by C10: an alert surfaced by the `'dns'` iteration reports a rate
of at least 5. -/
theorem dnsPass_rate_floor (st : DetectorState) (p : Packet) (now start rt : ℚ)
    (m : FloodMsg) (h : (dnsPass st p now start).1 = .alert rt m) :
    5 ≤ m.rate := by
  unfold dnsPass at h
  rcases hF : detectFlood st p .dns now with ⟨o, st₂⟩
  rw [hF] at h
  cases o with
  | raised => simp at h
  | quiet => simp at h
  | msg m' =>
    simp only [] at h
    by_cases h5 : 5 ≤ m'.rate
    · rw [if_pos h5] at h
      simp only [DetectResult.alert.injEq] at h
      obtain ⟨-, rfl⟩ := h
      exact h5
    · rw [if_neg h5] at h
      simp at h

/-- `observe` on an already-recorded pair is a no-op without alert. -/
theorem observe_known (st : DetectorState) (link ip : String)
    (h : ip ∈ lookupD st.arpMap link) : observe st link ip = (none, st) := by
  simp [observe, h]

/-- `observe` on a new claimed address: the set grows, and the alert fires
exactly when the grown set has more than one element. -/
theorem observe_new (st : DetectorState) (link ip : String)
    (h : ¬ip ∈ lookupD st.arpMap link) :
    observe st link ip
      = (if 1 < (lookupD st.arpMap link ++ [ip]).length
          then some (link, lookupD st.arpMap link ++ [ip]) else none,
         { st with arpMap := updateD st.arpMap link (lookupD st.arpMap link ++ [ip]) }) := by
  simp only [observe]
  rw [if_neg h]
  split <;> rfl

/-! The claims. -/

/-- C1 counterexample: starting from a fresh detector, the fifth SYN packet
from `"A"` (all at time 0) observes rate `1`, which meets the adaptive
threshold (the flood pass emits its message, and
`baseline * multiplier ≤ 1`), yet `detect_attacks` returns no alert for any
of the five packets — so an alert is *not* emitted whenever the computed
rate reaches the adaptive threshold. -/
theorem c1_threshold_iff_cex :
    (detectFlood (runSeq initState 0 (synBurst 4)).2 pSyn .syn 0).2.baselineRates .syn
        * thresholdMultiplier .syn ≤ 1 ∧
    (detectFlood (runSeq initState 0 (synBurst 4)).2 pSyn .syn 0).1
        = .msg ⟨.syn, "A", 1⟩ ∧
    (runSeq initState 0 (synBurst 5)).1 = List.replicate 5 .noAlert := by
  with_unfolding_all decide

/-- C1 (amended): for a packet qualifying as an event of exactly one type
(`'syn'` with the multiplier 2, or `'dns'` with the multiplier 3),
`detect_attacks` emits the alert naming that event type, the source and the
computed rate if and only if the computed rate reaches the type's adaptive
threshold `baseline * multiplier` AND the hard floor of 5 events/sec; in a
flood from one source the alert therefore appears on the first packet
satisfying both conditions. -/
theorem c1_alert_iff_threshold_and_floor (st : DetectorState) (p : Packet)
    (ety : EventType) (now start : ℚ) (s : String)
    (hq : qualifies p ety = true)
    (honly : ∀ e, e ≠ ety → qualifies p e = false)
    (hs : p.ipSrc = some s) :
    (detectAttacks st p now start).1
        = .alert (now - start)
            ⟨ety, s, specRate (lookupD (st.eventHistory ety) s) now⟩
      ↔ (specBaseline (st.baselineRates ety)
            (specRate (lookupD (st.eventHistory ety) s) now)
          * thresholdMultiplier ety
          ≤ specRate (lookupD (st.eventHistory ety) s) now
        ∧ 5 ≤ specRate (lookupD (st.eventHistory ety) s) now) := by
  cases ety with
  | syn =>
    exact detectAttacks_syn_alert_iff st p now start s hq
      (honly .dns (by decide)) hs
  | dns =>
    exact detectAttacks_dns_alert_iff st p now start s
      (honly .syn (by decide)) hq hs

/-- C1 witness: on a state whose `'syn'` window for `"A"` holds 24 stamps,
the next SYN observes rate 5 and the syn alert fires; on a state whose
`'dns'` window for `"A"` holds 63 stamps, the next DNS query observes rate
12.8 and the dns alert fires. -/
theorem c1_alert_iff_threshold_and_floor_witness :
    qualifies pSyn .syn = true ∧ qualifies pDns .dns = true ∧
    (detectAttacks stW pSyn 0 0).1
      = .alert (0 - 0) ⟨.syn, "A", specRate (lookupD (stW.eventHistory .syn) "A") 0⟩ ∧
    (detectAttacks stWD pDns 0 0).1
      = .alert (0 - 0) ⟨.dns, "A", specRate (lookupD (stWD.eventHistory .dns) "A") 0⟩ :=
  ⟨rfl, rfl,
    (c1_alert_iff_threshold_and_floor stW pSyn .syn 0 0 "A" rfl
      (fun e he => match e, he with
        | .dns, _ => rfl
        | .syn, he => absurd rfl he) rfl).mpr (by with_unfolding_all decide),
    (c1_alert_iff_threshold_and_floor stWD pDns .dns 0 0 "A" rfl
      (fun e he => match e, he with
        | .syn, _ => rfl
        | .dns, he => absurd rfl he) rfl).mpr (by with_unfolding_all decide)⟩

set_option maxRecDepth 40000 in
/-- C2 counterexample: in a 26-packet SYN burst from `"A"` all at time 0,
packet 25 and packet 26 both surface alerts, zero seconds apart — far less
than the claimed 0.5 s cooldown — so an alert does not suppress an
immediately following alert. -/
theorem c2_cooldown_cex :
    (runSeq initState 0 (synBurst 26)).1.getD 24 .noAlert
        = .alert 0 ⟨.syn, "A", 5⟩ ∧
    (runSeq initState 0 (synBurst 26)).1.getD 25 .noAlert
        = .alert 0 ⟨.syn, "A", 26 / 5⟩ ∧
    (0 : ℚ) - 0 < 1 / 2 := by
  with_unfolding_all decide

/-- C2 (amended): the code has no alert cooldown: whether a call emits an
alert depends only on the rate and threshold computed for the current
packet, never on when the previous alert was emitted — immediately after an
alert (hypothesis `hprev`), a qualifying packet still alerts, with no
constraint whatsoever on `t₂ - t₁` (in particular `t₂ - t₁ < 1/2`). -/
theorem c2_no_cooldown (st : DetectorState) (p₁ p₂ : Packet) (t₁ t₂ start : ℚ)
    (s : String) (rt : ℚ) (m : FloodMsg)
    (hprev : (detectAttacks st p₁ t₁ start).1 = .alert rt m)
    (hsyn : synEvent p₂ = true) (hdns : dnsEvent p₂ = false)
    (hs : p₂.ipSrc = some s)
    (hth : specBaseline ((detectAttacks st p₁ t₁ start).2.baselineRates .syn)
             (specRate (lookupD ((detectAttacks st p₁ t₁ start).2.eventHistory .syn) s) t₂)
           * thresholdMultiplier .syn
           ≤ specRate (lookupD ((detectAttacks st p₁ t₁ start).2.eventHistory .syn) s) t₂)
    (hfloor : 5 ≤ specRate
        (lookupD ((detectAttacks st p₁ t₁ start).2.eventHistory .syn) s) t₂) :
    (detectAttacks (detectAttacks st p₁ t₁ start).2 p₂ t₂ start).1
      = .alert (t₂ - start)
          ⟨.syn, s,
           specRate (lookupD ((detectAttacks st p₁ t₁ start).2.eventHistory .syn) s) t₂⟩ :=
  (detectAttacks_syn_alert_iff _ p₂ t₂ start s hsyn hdns hs).mpr ⟨hth, hfloor⟩

/-- C2 witness: an alert at time 0 followed by a second alert at time 0,
zero seconds (< 0.5 s) later. -/
theorem c2_no_cooldown_witness :
    (0 : ℚ) - 0 < 1 / 2 ∧
    (detectAttacks (detectAttacks stW pSyn 0 0).2 pSyn 0 0).1
      = .alert (0 - 0)
          ⟨.syn, "A",
           specRate (lookupD ((detectAttacks stW pSyn 0 0).2.eventHistory .syn) "A") 0⟩ :=
  ⟨by with_unfolding_all decide,
   c2_no_cooldown stW pSyn pSyn 0 0 0 "A" (0 - 0) ⟨.syn, "A", 5⟩
     (by with_unfolding_all decide) rfl rfl rfl
     (by with_unfolding_all decide) (by with_unfolding_all decide)⟩

/-- C3 counterexample: a SYN-ACK (flags `0x12`: SYN and ACK both set) does
qualify as a `'syn'` event in the code — its timestamp is recorded in the
window — although the claim's rule (ACK must be clear) excludes it. -/
theorem c3_synack_cex :
    synEvent pSynAck = true ∧ synEventSpec pSynAck = false ∧
    (detectFlood initState pSynAck .syn 0).2.eventHistory .syn = [("A", [0])] := by
  with_unfolding_all decide

/-- C3 (amended): a packet counts as a `'syn'` event if and only if it has
a TCP layer and the SYN flag bit (0x02) is set — the ACK bit is not
consulted, so SYN-ACKs also qualify; when it qualifies, the window keyed by
the packet's network-layer source address receives the event. -/
theorem c3_syn_qualification (p : Packet) (st : DetectorState) (now : ℚ)
    (s : String) (hs : p.ipSrc = some s) (hq : synEvent p = true) :
    (synEvent p = true ↔ p.hasTCP = true ∧ p.tcpFlags &&& 2 ≠ 0) ∧
    lookupD ((detectFlood st p .syn now).2.eventHistory .syn) s
      = evict now (lookupD (st.eventHistory .syn) s ++ [now]) := by
  constructor
  · simp [synEvent]
  · rw [detectFlood_qual st p .syn now s hq hs]
    simp [lookupD_cleanup, lookupD_record_self]

/-- C3 witness: a pure SYN from `"A"` on the fresh state. -/
theorem c3_syn_qualification_witness :
    pSyn.ipSrc = some "A" ∧ synEvent pSyn = true ∧
    lookupD ((detectFlood initState pSyn .syn 0).2.eventHistory .syn) "A"
      = evict 0 (lookupD (initState.eventHistory .syn) "A" ++ [0]) :=
  ⟨rfl, rfl, (c3_syn_qualification pSyn initState 0 "A" rfl rfl).2⟩

/-- C4: `observe(mac, ip1)` then `observe(mac, ip2)` with `ip2 ≠ ip1` (from
a state that has seen nothing for `mac`) alerts on the second call naming
the link address and both claimed addresses, and a repeated
`observe(mac, ip1)` yields no further alert. -/
theorem c4_spoof_observe (st : DetectorState) (mac ip1 ip2 : String)
    (hne : ip2 ≠ ip1) (h0 : lookupD st.arpMap mac = []) :
    (observe st mac ip1).1 = none ∧
    (observe (observe st mac ip1).2 mac ip2).1 = some (mac, [ip1, ip2]) ∧
    (observe (observe (observe st mac ip1).2 mac ip2).2 mac ip1).1 = none := by
  have h1 : observe st mac ip1
      = (none, { st with arpMap := updateD st.arpMap mac [ip1] }) := by
    rw [observe_new st mac ip1 (by rw [h0]; simp), h0]
    simp
  have hl1 : lookupD ({ st with
      arpMap := updateD st.arpMap mac [ip1] } : DetectorState).arpMap mac
      = [ip1] := lookupD_updateD_self st.arpMap mac [ip1]
  have h2 : observe ({ st with
        arpMap := updateD st.arpMap mac [ip1] } : DetectorState) mac ip2
      = (some (mac, [ip1, ip2]),
         { st with arpMap := updateD (updateD st.arpMap mac [ip1]) mac [ip1, ip2] }) := by
    rw [observe_new _ mac ip2 (by rw [hl1]; simp [hne]), hl1]
    simp
  have hl2 : lookupD (updateD (updateD st.arpMap mac [ip1]) mac [ip1, ip2]) mac
      = [ip1, ip2] := lookupD_updateD_self _ mac [ip1, ip2]
  have h3 : observe ({ st with
        arpMap := updateD (updateD st.arpMap mac [ip1]) mac [ip1, ip2] } :
          DetectorState) mac ip1
      = (none, { st with
          arpMap := updateD (updateD st.arpMap mac [ip1]) mac [ip1, ip2] }) := by
    refine observe_known _ mac ip1 ?_
    rw [hl2]
    simp
  rw [h1, h2, h3]
  exact ⟨rfl, rfl, rfl⟩

/-- C4 witness: concrete addresses on the fresh state. -/
theorem c4_spoof_observe_witness :
    ("2" : String) ≠ "1" ∧ lookupD initState.arpMap "m" = [] ∧
    (observe (observe initState "m" "1").2 "m" "2").1 = some ("m", ["1", "2"]) :=
  ⟨by decide, rfl, (c4_spoof_observe initState "m" "1" "2" (by decide) rfl).2.1⟩

/-- C5: `reset()` empties every per-source window, clears the spoof map,
restores the baselines to their initial configured values, and replaying
any sequence after a reset produces exactly the trace — hence the same
first-alert timing — of a freshly constructed detector. -/
theorem c5_reset_replay (st : DetectorState) (start : ℚ)
    (seq : List (Packet × ℚ)) :
    (reset st).arpMap = [] ∧
    (∀ ety, (reset st).eventHistory ety = []) ∧
    (∀ ety, (reset st).baselineRates ety = initialBaseline ety) ∧
    runSeq (reset st) start seq = runSeq initState start seq ∧
    firstAlert (runSeq (reset st) start seq).1
      = firstAlert (runSeq initState start seq).1 :=
  ⟨rfl, fun _ => rfl, fun _ => rfl, rfl, rfl⟩

/-- C6: one qualifying flood pass performs exactly the claimed steps, in
order: the timestamp is appended to the source's window and expired entries
are evicted (other sources of the type are evicted too — and no other
type's state moves); the rate is the window count over the window duration;
the shared per-type baseline is decayed by `(1 - decay_factor)` and then
blended once as `alpha * rate + (1 - alpha) * baseline`; and the message is
emitted exactly when the rate reaches `baseline * multiplier`. -/
theorem c6_flood_update_steps (st : DetectorState) (p : Packet)
    (ety : EventType) (now : ℚ) (s : String)
    (hq : qualifies p ety = true) (hs : p.ipSrc = some s) :
    lookupD ((detectFlood st p ety now).2.eventHistory ety) s
      = specWindow (lookupD (st.eventHistory ety) s) now ∧
    (∀ s', s' ≠ s → lookupD ((detectFlood st p ety now).2.eventHistory ety) s'
      = evict now (lookupD (st.eventHistory ety) s')) ∧
    (∀ e, e ≠ ety → (detectFlood st p ety now).2.eventHistory e = st.eventHistory e) ∧
    (detectFlood st p ety now).2.baselineRates ety
      = specBaseline (st.baselineRates ety)
          (specRate (lookupD (st.eventHistory ety) s) now) ∧
    (∀ e, e ≠ ety → (detectFlood st p ety now).2.baselineRates e = st.baselineRates e) ∧
    ((detectFlood st p ety now).1
        = .msg ⟨ety, s, specRate (lookupD (st.eventHistory ety) s) now⟩
      ↔ (detectFlood st p ety now).2.baselineRates ety * thresholdMultiplier ety
          ≤ specRate (lookupD (st.eventHistory ety) s) now) := by
  rw [detectFlood_qual st p ety now s hq hs]
  refine ⟨?_, ?_, ?_, ?_, ?_, ?_⟩
  · simp [lookupD_cleanup, lookupD_record_self, specWindow]
  · intro s' h
    simp [lookupD_cleanup, lookupD_record_ne _ _ _ _ h]
  · intro e h
    simp [h]
  · simp
  · intro e h
    simp [h]
  · by_cases hth : specBaseline (st.baselineRates ety)
        (specRate (lookupD (st.eventHistory ety) s) now)
        * thresholdMultiplier ety
        ≤ specRate (lookupD (st.eventHistory ety) s) now
    · simp [hth]
    · simp [hth]

/-- C6 witness: the SYN from `"A"` on `stW`. -/
theorem c6_flood_update_steps_witness :
    qualifies pSyn .syn = true ∧ pSyn.ipSrc = some "A" ∧
    lookupD ((detectFlood stW pSyn .syn 0).2.eventHistory .syn) "A"
      = specWindow (lookupD (stW.eventHistory .syn) "A") 0 :=
  ⟨rfl, rfl, (c6_flood_update_steps stW pSyn .syn 0 "A" rfl rfl).1⟩

/-- C7 counterexample: on the out-of-order window `[20, 0]`, eviction at
`now = 20` stops at the fresh head and retains the expired stamp `0`, with
`now - 0 > window_duration` — the invariant fails for an arbitrary
(unsorted) sequence of recorded timestamps. -/
theorem c7_unsorted_cex :
    evict 20 [20, 0] = [20, 0] ∧ (0 : ℚ) ∈ evict 20 [20, 0] ∧
    ¬((20 : ℚ) - 0 ≤ timeWindow) := by
  with_unfolding_all decide

/-- C7 (amended): on a chronologically ordered (non-decreasing) window —
which is what the code's use of `time.time()` produces — after eviction
every retained timestamp `t` satisfies `now - t ≤ window_duration`, the
count equals the number of recorded timestamps within that bound, what
remains is a suffix of the original window (eviction happens at the head),
and recording appends at the tail. -/
theorem c7_eviction_invariant (now : ℚ) (l : List ℚ)
    (h : l.Sorted (· ≤ ·)) :
    (∀ t ∈ evict now l, now - t ≤ timeWindow) ∧
    (evict now l).length
      = (l.filter (fun t => decide (now - t ≤ timeWindow))).length ∧
    evict now l <:+ l ∧
    ∀ (m : History) (k : String) (t : ℚ),
      lookupD (recordEvent m k t) k = lookupD m k ++ [t] := by
  refine ⟨?_, by rw [evict_sorted_eq_filter now l h], evict_suffix now l,
    fun m k t => lookupD_record_self m k t⟩
  intro t ht
  rw [evict_sorted_eq_filter now l h] at ht
  exact of_decide_eq_true (List.mem_filter.mp ht).2

/-- C7 witness: the sorted window `[0, 1, 3]` evicted at `now = 6`. -/
theorem c7_eviction_invariant_witness :
    ([0, 1, 3] : List ℚ).Sorted (· ≤ ·) ∧
    (evict 6 [0, 1, 3]).length
      = (([0, 1, 3] : List ℚ).filter
          (fun t => decide ((6 : ℚ) - t ≤ timeWindow))).length :=
  ⟨by with_unfolding_all decide,
   (c7_eviction_invariant 6 [0, 1, 3] (by with_unfolding_all decide)).2.1⟩

/-- C8: `detect_attacks` checks `'syn'` before `'dns'` and stops at the
first alert it emits: when the syn pass surfaces an alert (rate ≥ 5), the
call returns exactly that one alert and the dns detector is never run (dns
windows and baseline are untouched); when the syn pass surfaced nothing —
either no message at all or a message below the 5.0 floor — an alert
surfaced by the dns pass is returned; and when neither pass surfaces an
alert (each produced no message, or only a sub-floor message) the call
returns nothing. -/
theorem c8_priority_single_alert (st : DetectorState) (p : Packet)
    (now start : ℚ) :
    (∀ m, (detectFlood st p .syn now).1 = .msg m → 5 ≤ m.rate →
      detectAttacks st p now start
          = (.alert (now - start) m, (detectFlood st p .syn now).2) ∧
      (detectFlood st p .syn now).2.eventHistory .dns = st.eventHistory .dns ∧
      (detectFlood st p .syn now).2.baselineRates .dns = st.baselineRates .dns) ∧
    (∀ m, ((detectFlood st p .syn now).1 = .quiet ∨
        (∃ m', (detectFlood st p .syn now).1 = .msg m' ∧ ¬5 ≤ m'.rate)) →
      (detectFlood (detectFlood st p .syn now).2 p .dns now).1 = .msg m →
      5 ≤ m.rate →
      (detectAttacks st p now start).1 = .alert (now - start) m) ∧
    (((detectFlood st p .syn now).1 = .quiet ∨
        (∃ m', (detectFlood st p .syn now).1 = .msg m' ∧ ¬5 ≤ m'.rate)) →
      ((detectFlood (detectFlood st p .syn now).2 p .dns now).1 = .quiet ∨
        (∃ m', (detectFlood (detectFlood st p .syn now).2 p .dns now).1 = .msg m'
          ∧ ¬5 ≤ m'.rate)) →
      (detectAttacks st p now start).1 = .noAlert) := by
  have key : ((detectFlood st p .syn now).1 = .quiet ∨
      (∃ m', (detectFlood st p .syn now).1 = .msg m' ∧ ¬5 ≤ m'.rate)) →
      detectAttacks st p now start
        = dnsPass (detectFlood st p .syn now).2 p now start := by
    intro h
    rcases h with hq | ⟨m', hm', h5'⟩
    · exact detectAttacks_of_syn_quiet _ _ _ _ _ (by rw [← hq])
    · exact detectAttacks_of_syn_low _ _ _ _ _ m' (by rw [← hm']) h5'
  refine ⟨?_, ?_, ?_⟩
  · intro m hm h5
    have hF : detectFlood st p .syn now = (.msg m, (detectFlood st p .syn now).2) := by
      rw [← hm]
    exact ⟨detectAttacks_of_syn_msg _ _ _ _ _ _ hF h5,
      (detectFlood_other_type st p .syn .dns now (by decide)).1,
      (detectFlood_other_type st p .syn .dns now (by decide)).2⟩
  · intro m hsynq hm h5
    have hF2 : detectFlood (detectFlood st p .syn now).2 p .dns now
        = (.msg m, (detectFlood (detectFlood st p .syn now).2 p .dns now).2) := by
      rw [← hm]
    rw [key hsynq, dnsPass_of_msg _ _ _ _ _ _ hF2 h5]
  · intro hsynq hdnsq
    rw [key hsynq]
    rcases hdnsq with hq2 | ⟨m', hm', h5'⟩
    · rw [dnsPass_of_quiet _ _ _ _ _ (by rw [← hq2])]
    · rw [dnsPass_of_low _ _ _ _ _ m' (by rw [← hm']) h5']

/-- C8 witness: the syn pass on `stW` surfaces an alert and the call stops
there; on the fifth SYN of a fresh burst the syn pass emits only a
sub-floor message (rate 1), the dns pass produces nothing, and the call
returns nothing. -/
theorem c8_priority_single_alert_witness :
    (detectFlood stW pSyn .syn 0).1 = .msg ⟨.syn, "A", 5⟩ ∧
    detectAttacks stW pSyn 0 0
      = (.alert (0 - 0) ⟨.syn, "A", 5⟩, (detectFlood stW pSyn .syn 0).2) ∧
    (detectAttacks (runSeq initState 0 (synBurst 4)).2 pSyn 0 0).1 = .noAlert :=
  ⟨by with_unfolding_all decide,
   ((c8_priority_single_alert stW pSyn 0 0).1 ⟨.syn, "A", 5⟩
     (by with_unfolding_all decide) (by with_unfolding_all decide)).1,
   (c8_priority_single_alert (runSeq initState 0 (synBurst 4)).2 pSyn 0 0).2.2
     (Or.inr ⟨⟨.syn, "A", 1⟩, by with_unfolding_all decide,
       by with_unfolding_all decide⟩)
     (Or.inl (by with_unfolding_all decide))⟩

/-- C9: a packet that claims a qualifying layer (TCP-SYN or DNS-query) but
has no network-layer source raises inside detection; `parse_packet` catches
it and surfaces the distinct processing-error output (never an attack
alert), the packet's inspection is abandoned, and the detector state is
exactly what it was before the packet — so subsequent packets are processed
as if the malformed one had never arrived. -/
theorem c9_malformed_no_crash (st : DetectorState) (p : Packet)
    (now start : ℚ) (h : synEvent p = true ∨ dnsEvent p = true)
    (hs : p.ipSrc = none) :
    parsePacket st p now start = (.procError, st) := by
  cases hsy : synEvent p with
  | true =>
    have hF : detectFlood st p .syn now = (.raised, st) :=
      detectFlood_raised st p .syn now hsy hs
    unfold parsePacket detectAttacks
    rw [hF]
  | false =>
    have hd : dnsEvent p = true := by
      rcases h with h1 | h2
      · rw [hsy] at h1
        exact absurd h1 (by simp)
      · exact h2
    have hF : detectFlood st p .syn now = (.quiet, st) :=
      detectFlood_not_qual st p .syn now hsy
    have hF2 : detectFlood st p .dns now = (.raised, st) :=
      detectFlood_raised st p .dns now hd hs
    unfold parsePacket
    rw [detectAttacks_of_syn_quiet _ _ _ _ _ hF]
    unfold dnsPass
    rw [hF2]

/-- C9 witness: a TCP SYN record with no IP layer on the fresh state. -/
theorem c9_malformed_no_crash_witness :
    (synEvent pBad = true ∨ dnsEvent pBad = true) ∧ pBad.ipSrc = none ∧
    parsePacket initState pBad 0 0 = (.procError, initState) :=
  ⟨Or.inl rfl, rfl, c9_malformed_no_crash initState pBad 0 0 (Or.inl rfl) rfl⟩

/-- C10: every alert `detect_attacks` returns reports a rate of at least
5.0 events/sec — a message whose rate is below the floor is silently
dropped by the `rate >= 5.0` filter. -/
theorem c10_alert_rate_floor (st : DetectorState) (p : Packet)
    (now start rt : ℚ) (m : FloodMsg)
    (h : (detectAttacks st p now start).1 = .alert rt m) :
    5 ≤ m.rate := by
  unfold detectAttacks at h
  rcases hF : detectFlood st p .syn now with ⟨o, st₁⟩
  rw [hF] at h
  cases o with
  | raised => simp at h
  | quiet =>
    simp only [] at h
    exact dnsPass_rate_floor st₁ p now start rt m h
  | msg m' =>
    simp only [] at h
    by_cases h5 : 5 ≤ m'.rate
    · rw [if_pos h5] at h
      simp only [DetectResult.alert.injEq] at h
      obtain ⟨-, rfl⟩ := h
      exact h5
    · rw [if_neg h5] at h
      exact dnsPass_rate_floor st₁ p now start rt m h

/-- C10 witness: the surfaced alert on `stW` reports rate 5. -/
theorem c10_alert_rate_floor_witness :
    (detectAttacks stW pSyn 0 0).1 = .alert (0 - 0) ⟨.syn, "A", 5⟩ ∧
    (5 : ℚ) ≤ (FloodMsg.mk .syn "A" 5).rate :=
  ⟨by with_unfolding_all decide,
   c10_alert_rate_floor stW pSyn 0 0 (0 - 0) ⟨.syn, "A", 5⟩
     (by with_unfolding_all decide)⟩

end Picosniff
